import Mathlib

/-!
Verification of the SATIM payment-gateway integration module.

The definitions below are a shallow embedding of the TypeScript sources:
  * src/security/SignatureValidator.ts  (HMAC-SHA256 signing and verification)
  * src/config/constants.ts             (status tables, error codes, MIN_AMOUNT)
  * src/handlers/CallbackHandler.ts     (callback pipeline and payment handler)
  * src/api/SatimAPI.ts                 (registerPayment local validation)
  * src/utils/helpers.ts                (generateOrderId)
  * src/utils/errors.ts                 (error records)

Machine integers are modelled as Nat with explicit reduction modulo 2^32
where the JavaScript code relies on 32-bit arithmetic (inside SHA-256).
Strings are Lean strings; Node's Buffer.from(s) is modelled by UTF-8 byte
encoding.  All definitions are executable.
-/

set_option maxRecDepth 100000

set_option maxHeartbeats 4000000

namespace Satim

/-! ## SHA-256 over byte lists (model of Node crypto, big-endian words) -/

/-- 2^32, the modulus for 32-bit words. -/
def w32 : Nat := 4294967296

/-- Right-rotation of a 32-bit word by n bits. -/
def rotr (n x : Nat) : Nat := (x / 2 ^ n + x % 2 ^ n * 2 ^ (32 - n)) % w32

/-- Logical right shift. -/
def shr (n x : Nat) : Nat := x / 2 ^ n

/-- SHA-256 round constants (FIPS 180-4, written in decimal). -/
def K256 : List Nat :=
  [1116352408, 1899447441, 3049323471, 3921009573, 961987163, 1508970993,
   2453635748, 2870763221, 3624381080, 310598401, 607225278, 1426881987,
   1925078388, 2162078206, 2614888103, 3248222580, 3835390401, 4022224774,
   264347078, 604807628, 770255983, 1249150122, 1555081692, 1996064986,
   2554220882, 2821834349, 2952996808, 3210313671, 3336571891, 3584528711,
   113926993, 338241895, 666307205, 773529912, 1294757372, 1396182291,
   1695183700, 1986661051, 2177026350, 2456956037, 2730485921, 2820302411,
   3259730800, 3345764771, 3516065817, 3600352804, 4094571909, 275423344,
   430227734, 506948616, 659060556, 883997877, 958139571, 1322822218,
   1537002063, 1747873779, 1955562222, 2024104815, 2227730452, 2361852424,
   2428436474, 2756734187, 3204031479, 3329325298]

/-- SHA-256 initial hash state (FIPS 180-4, written in decimal). -/
def initH : List Nat :=
  [1779033703, 3144134277, 1013904242, 2773480762,
   1359893119, 2600822924, 528734635, 1541459225]

/-- Big-endian byte serialization of one 32-bit word. -/
def wordToBytes (w : Nat) : List Nat :=
  [w / 16777216 % 256, w / 65536 % 256, w / 256 % 256, w % 256]

/-- Group a byte list into big-endian 32-bit words. -/
def bytesToWords : List Nat → List Nat
  | a :: b :: c :: d :: rest => (((a * 256 + b) * 256 + c) * 256 + d) :: bytesToWords rest
  | _ => []

/-- SHA-256 Σ0. -/
def bigSigma0 (x : Nat) : Nat := rotr 2 x ^^^ rotr 13 x ^^^ rotr 22 x

/-- SHA-256 Σ1. -/
def bigSigma1 (x : Nat) : Nat := rotr 6 x ^^^ rotr 11 x ^^^ rotr 25 x

/-- SHA-256 σ0. -/
def smallSigma0 (x : Nat) : Nat := rotr 7 x ^^^ rotr 18 x ^^^ shr 3 x

/-- SHA-256 σ1. -/
def smallSigma1 (x : Nat) : Nat := rotr 17 x ^^^ rotr 19 x ^^^ shr 10 x

/-- Extend a 16-word message schedule by n further words. -/
def extendSchedule : List Nat → Nat → List Nat
  | w, 0 => w
  | w, n+1 =>
    let t := w.length
    let x := (smallSigma1 (w.getD (t - 2) 0) + w.getD (t - 7) 0
              + smallSigma0 (w.getD (t - 15) 0) + w.getD (t - 16) 0) % w32
    extendSchedule (w ++ [x]) n

/-- Run the 64 compression rounds; the state is the word list [a,b,c,d,e,f,g,h];
the first argument is the list of per-round values (K_t + W_t) mod 2^32. -/
def compressRounds : List Nat → List Nat → List Nat
  | [], st => st
  | kw :: rest, st =>
    let a := st.getD 0 0
    let b := st.getD 1 0
    let c := st.getD 2 0
    let d := st.getD 3 0
    let e := st.getD 4 0
    let f := st.getD 5 0
    let g := st.getD 6 0
    let h := st.getD 7 0
    let ch := (e &&& f) ^^^ ((w32 - 1 - e % w32) &&& g)
    let t1 := (h + bigSigma1 e + ch + kw) % w32
    let maj := (a &&& b) ^^^ (a &&& c) ^^^ (b &&& c)
    let t2 := (bigSigma0 a + maj) % w32
    compressRounds rest [(t1 + t2) % w32, a, b, c, (d + t1) % w32, e, f, g]

/-- Compress one 64-byte block into the running hash state. -/
def compressBlock (h : List Nat) (block : List Nat) : List Nat :=
  let w := extendSchedule (bytesToWords block) 48
  let kw := List.zipWith (fun k x => (k + x) % w32) K256 w
  let st := compressRounds kw h
  List.zipWith (fun x y => (x + y) % w32) h st

/-- SHA-256 padding: append 0x80, zero bytes to 56 mod 64, then the
64-bit big-endian bit length. -/
def padMessage (msg : List Nat) : List Nat :=
  let len := msg.length
  let zeros := (119 - len % 64) % 64
  let bl := 8 * len
  msg ++ 128 :: List.replicate zeros 0 ++
    [bl / 72057594037927936 % 256, bl / 281474976710656 % 256,
     bl / 1099511627776 % 256, bl / 4294967296 % 256,
     bl / 16777216 % 256, bl / 65536 % 256, bl / 256 % 256, bl % 256]

/-- Fold the compression function over successive 64-byte blocks.  The fuel
argument is the number of remaining blocks (structural, so that the kernel
can evaluate it). -/
def processBlocks : Nat → List Nat → List Nat → List Nat
  | 0, h, _ => h
  | fuel+1, h, msg =>
    if 64 ≤ msg.length then
      processBlocks fuel (compressBlock h (msg.take 64)) (msg.drop 64)
    else h

/-- Serialize the final 8-word state to 32 bytes, big-endian. -/
def digestBytes (hs : List Nat) : List Nat :=
  wordToBytes (hs.getD 0 0) ++ wordToBytes (hs.getD 1 0) ++
  wordToBytes (hs.getD 2 0) ++ wordToBytes (hs.getD 3 0) ++
  wordToBytes (hs.getD 4 0) ++ wordToBytes (hs.getD 5 0) ++
  wordToBytes (hs.getD 6 0) ++ wordToBytes (hs.getD 7 0)

/-- SHA-256 of a byte list. -/
def sha256 (msg : List Nat) : List Nat :=
  let padded := padMessage msg
  digestBytes (processBlocks (padded.length / 64) initH padded)

/-- HMAC-SHA256 with byte-list key and message (block size 64). -/
def hmacSha256 (key msg : List Nat) : List Nat :=
  let k0 := if 64 < key.length then sha256 key else key
  let kp := k0 ++ List.replicate (64 - k0.length) 0
  let ikp := kp.map (fun b => b ^^^ 0x36)
  let okp := kp.map (fun b => b ^^^ 0x5c)
  sha256 (okp ++ sha256 (ikp ++ msg))

/-! ## UTF-8 encoding (model of Buffer.from / hmac.update on strings) -/

/-- UTF-8 bytes of one character. -/
def utf8Bytes (c : Char) : List Nat :=
  let n := c.toNat
  if n < 128 then [n]
  else if n < 2048 then [192 + n / 64, 128 + n % 64]
  else if n < 65536 then [224 + n / 4096, 128 + n / 64 % 64, 128 + n % 64]
  else [240 + n / 262144, 128 + n / 4096 % 64, 128 + n / 64 % 64, 128 + n % 64]

/-- UTF-8 bytes of a string. -/
def strBytes (s : String) : List Nat := (s.data.flatMap utf8Bytes)

/-! ## Hex rendering (model of digest('hex') followed by toUpperCase()) -/

/-- Lowercase hex digits, as produced by Node's digest('hex'). -/
def hexChars : List Char := "0123456789abcdef".data

/-- Lowercase hex digit of a nibble. -/
def hexDigitL (n : Nat) : Char := hexChars.getD (n % 16) '0'

/-- Lowercase hex string of a byte list (two digits per byte). -/
def bytesToHex (bs : List Nat) : String :=
  ⟨bs.flatMap (fun b => [hexDigitL (b / 16), hexDigitL (b % 16)])⟩

/-- Model of String.prototype.toUpperCase for hex strings: character map. -/
def toUpperStr (s : String) : String := ⟨s.data.map Char.toUpper⟩

/-! ## Decimal rendering (model of Number.prototype.toString) -/

/-- Decimal digit character of n % 10. -/
def decDigit (n : Nat) : Char := hexChars.getD (n % 10) '0'

/-- Reversed decimal digits, with explicit fuel so the kernel can evaluate. -/
def natDigitsRev : Nat → Nat → List Char
  | 0, _ => []
  | fuel+1, n => if n < 10 then [decDigit n] else decDigit (n % 10) :: natDigitsRev fuel (n / 10)

/-- Decimal string of a natural number (JavaScript Number.prototype.toString). -/
def natToString (n : Nat) : String := ⟨(natDigitsRev (n + 1) n).reverse⟩

/-! ## Callback payloads (JavaScript objects with primitive values) -/

/-- Primitive value of a callback payload field. -/
inductive JVal where
  | str (s : String)
  | num (n : Int)
deriving DecidableEq, Repr

/-- JavaScript string coercion, as used by template literals and property keys. -/
def JVal.toStr : JVal → String
  | .str s => s
  | .num n => if 0 ≤ n then natToString n.toNat else "-" ++ natToString (-n).toNat

/-- JavaScript truthiness of a primitive value. -/
def JVal.truthy : JVal → Bool
  | .str s => s ≠ ""
  | .num n => n ≠ 0

/-- A JavaScript object modelled as an ordered key/value list (keys unique). -/
abbrev Payload := List (String × JVal)

/-- Rest-destructuring that removes one key, keeping the other fields in order
(model of const \x7b signature: _, ...payload \x7d = callbackData). -/
def removeKey (k : String) (p : Payload) : Payload := p.filter (fun kv => kv.1 ≠ k)

/-! ## Default string sort (model of Array.prototype.sort on key arrays) -/

/-- Lexicographic comparison of character lists by code unit, the default
comparison used by Array.prototype.sort on strings. -/
def charListLe : List Char → List Char → Bool
  | [], _ => true
  | _ :: _, [] => false
  | a :: as, b :: bs =>
    if a.toNat < b.toNat then true
    else if b.toNat < a.toNat then false
    else charListLe as bs

/-- Default string ordering of Array.prototype.sort. -/
def strLeB (a b : String) : Bool := charListLe a.data b.data

/-- Insert one key into an already sorted key list. -/
def insertKeySorted (k : String) : List String → List String
  | [] => [k]
  | x :: xs => if strLeB k x then k :: x :: xs else x :: insertKeySorted k xs

/-- Sort a key list with the default string comparison (insertion sort; any
correct comparison sort agrees with it on the duplicate-free key arrays that
Object.keys produces). -/
def sortKeys : List String → List String
  | [] => []
  | x :: xs => insertKeySorted x (sortKeys xs)

/-! ## SignatureValidator (src/security/SignatureValidator.ts) -/

/-- SignatureValidator.generateSignature: sort the keys, join key=value pairs
with ampersands, HMAC-SHA256 under the secret key, hex, uppercase. -/
def generateSignature (secretKey : String) (payload : Payload) : String :=
  let sortedKeys := sortKeys (payload.map Prod.fst)
  let dataString := String.intercalate "&"
    (sortedKeys.map (fun k => k ++ "=" ++ ((payload.lookup k).getD (.str "undefined")).toStr))
  toUpperStr (bytesToHex (hmacSha256 (strBytes secretKey) (strBytes dataString)))

/-- crypto.timingSafeEqual on byte buffers: raises on length mismatch,
otherwise constant-time equality. -/
def timingSafeEqual (a b : List Nat) : Except String Bool :=
  if a.length = b.length then .ok (a == b) else .error "Input buffers must have the same byte length"

/-- SignatureValidator.secureCompare: false on length mismatch, then
timingSafeEqual on the UTF-8 buffers with any exception caught as false. -/
def secureCompare (a b : String) : Bool :=
  if a.length ≠ b.length then false
  else
    match timingSafeEqual (strBytes a) (strBytes b) with
    | .ok r => r
    | .error _ => false

/-- SignatureValidator.verifySignature: recompute and compare in constant time. -/
def verifySignature (secretKey : String) (payload : Payload) (receivedSignature : String) : Bool :=
  secureCompare (generateSignature secretKey payload) receivedSignature

/-- Structured details of the SignatureError thrown by verifyCallback:
the received signature and the payload key names. -/
structure SigErrorDetails where
  received : String
  payloadKeys : List String
deriving DecidableEq, Repr

/-- SignatureError value as thrown by SignatureValidator.verifyCallback. -/
structure SignatureError where
  message : String
  details : Option SigErrorDetails
deriving DecidableEq, Repr

/-- SignatureValidator.verifyCallback: missing signature and invalid
signature both raise a SignatureError; otherwise returns unit. -/
def verifyCallback (secretKey : String) (callbackData : Payload) (signature : String) :
    Except SignatureError Unit :=
  if signature = "" then .error ⟨"Missing signature in callback", none⟩
  else
    let payload := removeKey "signature" callbackData
    if verifySignature secretKey payload signature then .ok ()
    else .error ⟨"Invalid signature", some ⟨signature, payload.map Prod.fst⟩⟩

/-! ## Status model (src/types and src/config/constants.ts) -/

/-- Internal payment status enumeration. -/
inductive PaymentStatus where
  | pending
  | success
  | failed
  | cancelled
  | timeout
  | refunded
  | partialRefund
deriving DecidableEq, Repr

/-- Runtime string value of each PaymentStatus enum member. -/
def PaymentStatus.toStr : PaymentStatus → String
  | .pending => "pending"
  | .success => "success"
  | .failed => "failed"
  | .cancelled => "cancelled"
  | .timeout => "timeout"
  | .refunded => "refunded"
  | .partialRefund => "partial_refund"

/-- STATUS_MAPPING table from src/config/constants.ts. -/
def STATUS_MAPPING : List (String × String) :=
  [("0", "success"), ("1", "success"), ("2", "success"), ("3", "failed"),
   ("4", "pending"), ("5", "failed"), ("6", "cancelled"),
   ("DEPOSITED", "success"), ("REVERSED", "success"), ("DECLINED", "failed"),
   ("CANCELLED", "cancelled"), ("PENDING", "pending")]

/-- Inverse of PaymentStatus.toStr on the enum's runtime strings. -/
def statusOfString (s : String) : Option PaymentStatus :=
  if s = "pending" then some .pending
  else if s = "success" then some .success
  else if s = "failed" then some .failed
  else if s = "cancelled" then some .cancelled
  else if s = "timeout" then some .timeout
  else if s = "refunded" then some .refunded
  else if s = "partial_refund" then some .partialRefund
  else none

/-- CallbackHandler.mapStatus: STATUS_MAPPING lookup (the TypeScript cast
re-reads the stored string as the enum), anything unmapped is FAILED. -/
def mapStatus (satimStatus : String) : PaymentStatus :=
  match (STATUS_MAPPING.lookup satimStatus).bind statusOfString with
  | some st => st
  | none => .failed

/-- PaymentHandler.mapOrderStatusToPaymentStatus.  The input none models an
absent (undefined) OrderStatus, which the guard sends to PENDING. -/
def mapOrderStatusToPaymentStatus : Option Int → PaymentStatus
  | none => .pending
  | some orderStatus =>
    if orderStatus = 1 ∨ orderStatus = 2 ∨ orderStatus = 11 then .success
    else if orderStatus = 4 then .refunded
    else if orderStatus = 6 ∨ orderStatus = -1 then .failed
    else if orderStatus = 3 then .cancelled
    else .pending

/-! ## CallbackHandler (src/handlers/CallbackHandler.ts) -/

/-- Which outcome handler of the CallbackHandler ran. -/
inductive HandlerKind where
  | success
  | failed
  | cancelled
deriving DecidableEq, Repr

/-- Registered outcome handlers: none means not registered; some r means
registered, r being the result of awaiting the handler (ok, or the message
of the value it threw). -/
structure Handlers where
  onPaymentSuccess : Option (Except String Unit)
  onPaymentFailed : Option (Except String Unit)
  onPaymentCancelled : Option (Except String Unit)

/-- Await one optional handler; an absent handler is skipped, not an error. -/
def runHandler : Option (Except String Unit) → HandlerKind → Except String (Option HandlerKind)
  | none, _ => .ok none
  | some (.ok _), k => .ok (some k)
  | some (.error m), _ => .error m

/-- CallbackHandler.processCallback.  Note that it applies mapStatus to the
status string it receives (which handle has already mapped once). -/
def processCallback (hs : Handlers) (statusStr : String) : Except String (Option HandlerKind) :=
  match mapStatus statusStr with
  | .success => runHandler hs.onPaymentSuccess .success
  | .failed => runHandler hs.onPaymentFailed .failed
  | .cancelled => runHandler hs.onPaymentCancelled .cancelled
  | _ => .ok none

/-- Truthiness of a named payload field (absent fields are falsy). -/
def fieldTruthy (data : Payload) (f : String) : Bool :=
  match data.lookup f with
  | some v => v.truthy
  | none => false

/-- String coercion of a named payload field (empty string when absent). -/
def fieldStr (data : Payload) (f : String) : String :=
  ((data.lookup f).getD (.str "")).toStr

/-- The required-field list of CallbackHandler.validateCallbackData. -/
def requiredFields : List String :=
  ["paymentId", "orderId", "status", "amount", "currency"]

/-- CallbackHandler.validateCallbackData: the first falsy required field
raises an error naming that field. -/
def validateCallbackData (data : Payload) : Except String Unit :=
  match requiredFields.find? (fun f => !fieldTruthy data f) with
  | some f => .error ("Missing required field: " ++ f)
  | none => .ok ()

/-- Acknowledgement body sent back to the gateway. -/
structure CallbackResponse where
  success : Bool
  message : String
  paymentId : String
deriving DecidableEq, Repr

/-- Observable outcome of CallbackHandler.handle: the HTTP status, the JSON
body, and (as an observation for the proofs) which outcome handler ran to
completion on the success path. -/
structure HandleResult where
  httpStatus : Nat
  response : CallbackResponse
  invoked : Option HandlerKind
deriving DecidableEq, Repr

/-- The try-block of CallbackHandler.handle: structural validation, signature
extraction (field first, then the x-satim-signature header), verification,
status mapping, dispatch.  Returns the payment id echoed on success plus the
handler that ran; any thrown value surfaces as the error message. -/
def handleTry (secretKey : String) (hs : Handlers) (body : Payload)
    (headerSig : Option String) : Except String (String × Option HandlerKind) :=
  match validateCallbackData body with
  | .error m => .error m
  | .ok _ =>
    let sigVal := if fieldTruthy body "signature" then fieldStr body "signature"
                  else headerSig.getD ""
    if sigVal = "" then .error "Missing signature"
    else
      let payloadNoSig := removeKey "signature" body
      match verifyCallback secretKey payloadNoSig sigVal with
      | .error e => .error e.message
      | .ok _ =>
        let mapped := mapStatus (fieldStr body "status")
        match processCallback hs mapped.toStr with
        | .error m => .error m
        | .ok inv => .ok (fieldStr body "paymentId", inv)

/-- CallbackHandler.handle: the catch-all boundary.  Every failure of the
try-block becomes HTTP 400 with success=false and the echoed payment id when
truthy (else "unknown"); success becomes HTTP 200 with success=true. -/
def handle (secretKey : String) (hs : Handlers) (body : Payload)
    (headerSig : Option String) : HandleResult :=
  match handleTry secretKey hs body headerSig with
  | .ok (pid, inv) => ⟨200, ⟨true, "Callback processed successfully", pid⟩, inv⟩
  | .error msg =>
    ⟨400, ⟨false, msg, if fieldTruthy body "paymentId" then fieldStr body "paymentId" else "unknown"⟩,
      none⟩

/-! ## Error records (src/utils/errors.ts) -/

/-- Error record: class name, gateway code, message, optional HTTP status. -/
structure ErrInfo where
  name : String
  code : String
  message : String
  statusCode : Option Nat
deriving DecidableEq, Repr

/-- ValidationError constructor from src/utils/errors.ts. -/
def mkValidationError (message : String) : ErrInfo :=
  ⟨"ValidationError", "VALIDATION_ERROR", message, some 400⟩

/-! ## SatimAPI.registerPayment (src/api/SatimAPI.ts) -/

/-- SATIM_ERROR_CODES.INVALID_PARAMETER. -/
def INVALID_PARAMETER : String := "5"

/-- MIN_AMOUNT from src/config/constants.ts (50 DA in centimes). -/
def MIN_AMOUNT : Int := 5000

/-- The local validation phase of SatimAPI.registerPayment — everything that
runs before the HTTP POST.  A .ok result means the request proceeds to the
network call; an error is the SatimError thrown before any request. -/
def registerPaymentValidate (amount : Int) : Except ErrInfo Unit :=
  if amount < MIN_AMOUNT then
    .error ⟨"SatimError", INVALID_PARAMETER, "Amount must be at least 5000 centimes (50 DA)", none⟩
  else if amount % 100 ≠ 0 then
    .error ⟨"SatimError", INVALID_PARAMETER, "Amount must be a multiple of 100 centimes", none⟩
  else .ok ()

/-! ## Order id generation (src/utils/helpers.ts, PaymentHandler.createPayment) -/

/-- JavaScript String.prototype.substring(0, n). -/
def substringJS (s : String) (n : Nat) : String := ⟨s.data.take n⟩

/-- JavaScript String.prototype.slice(-n): last n characters. -/
def sliceLast (s : String) (n : Nat) : String := ⟨s.data.drop (s.data.length - n)⟩

/-- JavaScript String.prototype.padStart(n, c). -/
def padStart (s : String) (n : Nat) (c : Char) : String :=
  ⟨List.replicate (n - s.data.length) c ++ s.data⟩

/-- generateOrderId from src/utils/helpers.ts; now models Date.now() and
rand models Math.floor(Math.random() * 1000). -/
def generateOrderId (pfx : String) (now rand : Nat) : String :=
  substringJS pfx 3 ++ sliceLast (natToString now) 4 ++ padStart (natToString rand) 3 '0'

/-- Order-number selection in PaymentHandler.createPayment:
order.orderId || generateOrderId() with the default "ORD" prefix. -/
def createPaymentOrderNumber (orderId : Option String) (now rand : Nat) : String :=
  match orderId with
  | some s => if s ≠ "" then s else generateOrderId "ORD" now rand
  | none => generateOrderId "ORD" now rand

/-! ## PaymentHandler.waitForPayment (polling loop) -/

/-- Verification outcome as seen by the polling loop. -/
structure VerificationS where
  status : PaymentStatus
  message : String
deriving DecidableEq, Repr

/-- Failure outcomes of waitForPayment. -/
inductive WaitError where
  | timeout
  | pollFailure (msg : String)
deriving DecidableEq, Repr

/-- The while-loop of PaymentHandler.waitForPayment.  poll i is the outcome
of the (i+1)-th verifyPayment call; fuel is the number of iterations the
guard Date.now() - startTime < timeoutMs admits.  Exhausted fuel is the
thrown Error('Payment verification timeout'); a poll that throws propagates
immediately. -/
def waitForPaymentLoop (poll : Nat → Except String VerificationS) :
    Nat → Nat → Except WaitError VerificationS
  | 0, _ => .error .timeout
  | fuel+1, i =>
    match poll i with
    | .error m => .error (.pollFailure m)
    | .ok v => if v.status ≠ .pending then .ok v else waitForPaymentLoop poll fuel (i + 1)

/-- Number of poll iterations admitted by a timeout budget when each
iteration sleeps intervalMs: iterations run while elapsed < timeoutMs. -/
def numPolls (timeoutMs intervalMs : Nat) : Nat :=
  (timeoutMs + intervalMs - 1) / intervalMs

/-- PaymentHandler.waitForPayment over an abstract poll sequence. -/
def waitForPayment (poll : Nat → Except String VerificationS)
    (timeoutMs intervalMs : Nat) : Except WaitError VerificationS :=
  waitForPaymentLoop poll (numPolls timeoutMs intervalMs) 0

/-! ## Helper lemmas -/

/-- A key absent from the key column is not found by lookup. -/
theorem lookup_eq_none_of_not_mem_keys {β : Type} (l : List (String × β)) (k : String)
    (h : k ∉ l.map Prod.fst) : l.lookup k = none := by
  induction l with
  | nil => rfl
  | cons kv rest ih =>
    simp only [List.map_cons, List.mem_cons, not_or] at h
    have hk : (k == kv.1) = false := beq_eq_false_iff_ne.mpr h.1
    cases kv with
    | mk k1 v1 =>
      simp only [List.lookup]
      simp only [List.map_cons] at hk
      rw [hk]
      exact ih h.2

/-- The polling loop returns the first non-pending verification it sees. -/
theorem waitForPaymentLoop_ok (poll : Nat → Except String VerificationS) :
    ∀ (fuel start k : Nat) (v : VerificationS),
      (∀ j, j < k → ∃ w, poll (start + j) = .ok w ∧ w.status = .pending) →
      poll (start + k) = .ok v → v.status ≠ .pending → k < fuel →
      waitForPaymentLoop poll fuel start = .ok v := by
  intro fuel
  induction fuel with
  | zero => intro start k v _ _ _ hk; omega
  | succ fuel ih =>
    intro start k v hprev hpoll hstat hk
    cases k with
    | zero =>
      have hp : poll start = .ok v := hpoll
      simp [waitForPaymentLoop, hp, hstat]
    | succ k =>
      obtain ⟨w, hw, hwp⟩ := hprev 0 (by omega)
      have hw' : poll start = .ok w := hw
      simp only [waitForPaymentLoop, hw', hwp]
      simp only [ne_eq, not_true_eq_false, if_neg, ite_false, not_false_eq_true]
      refine ih (start + 1) k v ?_ ?_ hstat (by omega)
      · intro j hj
        have e : start + 1 + j = start + (j + 1) := by omega
        rw [e]
        exact hprev (j + 1) (by omega)
      · have e : start + 1 + k = start + (k + 1) := by omega
        rw [e]
        exact hpoll

/-- A poll failure propagates out of the loop at once. -/
theorem waitForPaymentLoop_error (poll : Nat → Except String VerificationS) :
    ∀ (fuel start k : Nat) (m : String),
      (∀ j, j < k → ∃ w, poll (start + j) = .ok w ∧ w.status = .pending) →
      poll (start + k) = .error m → k < fuel →
      waitForPaymentLoop poll fuel start = .error (.pollFailure m) := by
  intro fuel
  induction fuel with
  | zero => intro start k m _ _ hk; omega
  | succ fuel ih =>
    intro start k m hprev hpoll hk
    cases k with
    | zero =>
      have hp : poll start = .error m := hpoll
      simp [waitForPaymentLoop, hp]
    | succ k =>
      obtain ⟨w, hw, hwp⟩ := hprev 0 (by omega)
      have hw' : poll start = .ok w := hw
      simp only [waitForPaymentLoop, hw', hwp]
      simp only [ne_eq, not_true_eq_false, if_neg, ite_false, not_false_eq_true]
      refine ih (start + 1) k m ?_ ?_ (by omega)
      · intro j hj
        have e : start + 1 + j = start + (j + 1) := by omega
        rw [e]
        exact hprev (j + 1) (by omega)
      · have e : start + 1 + k = start + (k + 1) := by omega
        rw [e]
        exact hpoll

/-- If every poll stays pending the loop exhausts its budget. -/
theorem waitForPaymentLoop_timeout (poll : Nat → Except String VerificationS)
    (h : ∀ j, ∃ w, poll j = .ok w ∧ w.status = .pending) :
    ∀ (fuel start : Nat), waitForPaymentLoop poll fuel start = .error .timeout := by
  intro fuel
  induction fuel with
  | zero => intro start; rfl
  | succ fuel ih =>
    intro start
    obtain ⟨w, hw, hwp⟩ := h start
    simp [waitForPaymentLoop, hw, hwp, ih (start + 1)]

/-- Reversed decimal digits of a one-digit number form at most one character. -/
theorem natDigitsRev_length_le_one (fuel n : Nat) (h : n < 10) :
    (natDigitsRev fuel n).length ≤ 1 := by
  cases fuel with
  | zero => simp [natDigitsRev]
  | succ f => simp [natDigitsRev, h]

/-- Reversed decimal digits of a two-digit number form at most two characters. -/
theorem natDigitsRev_length_le_two (fuel n : Nat) (h : n < 100) :
    (natDigitsRev fuel n).length ≤ 2 := by
  cases fuel with
  | zero => simp [natDigitsRev]
  | succ f =>
    by_cases h10 : n < 10
    · simp [natDigitsRev, h10]
    · have hrec := natDigitsRev_length_le_one f (n / 10) (by omega)
      simp only [natDigitsRev, h10, if_false, List.length_cons]
      omega

/-- Reversed decimal digits of a number below 1000 form at most three characters. -/
theorem natDigitsRev_length_le_three (fuel n : Nat) (h : n < 1000) :
    (natDigitsRev fuel n).length ≤ 3 := by
  cases fuel with
  | zero => simp [natDigitsRev]
  | succ f =>
    by_cases h10 : n < 10
    · simp [natDigitsRev, h10]
    · have hrec := natDigitsRev_length_le_two f (n / 10) (by omega)
      simp only [natDigitsRev, h10, if_false, List.length_cons]
      omega

/-- Every byte of every digest serializes to exactly 4 bytes, so a digest has
32 bytes regardless of the hash state. -/
theorem digestBytes_length (hs : List Nat) : (digestBytes hs).length = 32 := by
  simp only [digestBytes, wordToBytes, List.length_append, List.length_cons, List.length_nil]

/-- A SHA-256 digest has 32 bytes. -/
theorem sha256_length (msg : List Nat) : (sha256 msg).length = 32 :=
  digestBytes_length _

/-- HMAC-SHA256 digests have 32 bytes. -/
theorem hmacSha256_length (key msg : List Nat) : (hmacSha256 key msg).length = 32 :=
  digestBytes_length _

/-- Two hex characters are rendered per byte. -/
theorem bytesToHex_length (bs : List Nat) : (bytesToHex bs).length = 2 * bs.length := by
  simp only [bytesToHex, String.length]
  induction bs with
  | nil => rfl
  | cons b t ih =>
    simp only [List.flatMap_cons, List.length_append, List.length_cons, List.length_nil, ih]
    omega

/-- Uppercasing is a character map, hence preserves length. -/
theorem toUpperStr_length (s : String) : (toUpperStr s).length = s.length := by
  simp only [toUpperStr, String.length, List.length_map]

/-- Signatures are 64 characters long. -/
theorem generateSignature_length (key : String) (p : Payload) :
    (generateSignature key p).length = 64 := by
  simp only [generateSignature, toUpperStr_length, bytesToHex_length, hmacSha256_length]

/-- The uppercase hexadecimal alphabet. -/
def hexUpperChars : List Char := "0123456789ABCDEF".data

/-- hexDigitL always lands in the lowercase table. -/
theorem hexDigitL_mem (n : Nat) : hexDigitL n ∈ hexChars := by
  unfold hexDigitL List.getD
  cases h : hexChars.get? (n % 16) with
  | none => simp [Option.getD]; decide
  | some c =>
    simp only [Option.getD]
    exact List.get?_mem h

/-- Uppercasing a lowercase hex digit lands in the uppercase alphabet. -/
theorem toUpper_hexChars_mem : ∀ c ∈ hexChars, c.toUpper ∈ hexUpperChars := by decide

/-- Every character of a signature is an uppercase hex digit. -/
theorem generateSignature_chars (key : String) (p : Payload) :
    ∀ c ∈ (generateSignature key p).data, c ∈ hexUpperChars := by
  intro c hc
  simp only [generateSignature, toUpperStr, bytesToHex, List.mem_map] at hc
  obtain ⟨c0, hc0, hup⟩ := hc
  simp only [List.mem_flatMap] at hc0
  obtain ⟨b, _, hb⟩ := hc0
  subst hup
  simp only [List.mem_cons, List.not_mem_nil, or_false] at hb
  have : c0 ∈ hexChars := by
    rcases hb with h | h
    · rw [h]; exact hexDigitL_mem _
    · rw [h]; exact hexDigitL_mem _
  exact toUpper_hexChars_mem c0 this

/-! ## UTF-8 injectivity -/

/-- No character encodes to the empty byte sequence. -/
theorem utf8Bytes_ne_nil (c : Char) : utf8Bytes c ≠ [] := by
  simp only [utf8Bytes]
  split_ifs <;> simp

/-- UTF-8 is prefix-determined: equal encodings followed by equal tails force
equal characters and equal tails. -/
theorem utf8Bytes_inj_append (a b : Char) (r1 r2 : List Nat)
    (h : utf8Bytes a ++ r1 = utf8Bytes b ++ r2) : a = b ∧ r1 = r2 := by
  have hval : a.toNat = b.toNat → a = b := fun hv => Char.ext (UInt32.ext hv)
  simp only [utf8Bytes] at h
  split_ifs at h <;>
    simp only [List.cons_append, List.nil_append, List.cons.injEq] at h <;>
    obtain ⟨e1, h⟩ := h <;>
    first
      | (exfalso; omega)
      | (exact ⟨hval (by omega), h⟩)
      | (obtain ⟨e2, h⟩ := h
         first
           | (exact ⟨hval (by omega), h⟩)
           | (obtain ⟨e3, h⟩ := h
              first
                | (exact ⟨hval (by omega), h⟩)
                | (obtain ⟨e4, h⟩ := h
                   exact ⟨hval (by omega), h⟩)))

/-- UTF-8 encoding of character lists is injective. -/
theorem utf8_flatMap_inj : ∀ (l1 l2 : List Char),
    l1.flatMap utf8Bytes = l2.flatMap utf8Bytes → l1 = l2 := by
  intro l1
  induction l1 with
  | nil =>
    intro l2 h
    cases l2 with
    | nil => rfl
    | cons c t =>
      exfalso
      simp only [List.flatMap_nil, List.flatMap_cons] at h
      have := congrArg List.length h
      simp only [List.length_nil, List.length_append] at this
      exact utf8Bytes_ne_nil c (List.length_eq_zero.mp (by omega))
  | cons c t ih =>
    intro l2 h
    cases l2 with
    | nil =>
      exfalso
      simp only [List.flatMap_cons, List.flatMap_nil] at h
      have := congrArg List.length h
      simp only [List.length_nil, List.length_append] at this
      exact utf8Bytes_ne_nil c (List.length_eq_zero.mp (by omega))
    | cons c2 t2 =>
      simp only [List.flatMap_cons] at h
      obtain ⟨hc, ht⟩ := utf8Bytes_inj_append c c2 _ _ h
      rw [hc, ih t2 ht]

/-- Buffer.from is injective on strings. -/
theorem strBytes_inj (a b : String) (h : strBytes a = strBytes b) : a = b := by
  cases a with
  | mk da =>
    cases b with
    | mk db =>
      have : da = db := utf8_flatMap_inj da db h
      rw [this]

/-! ## Claim theorems -/

/-- C4 counterexample: at amount 4999 the failure surfaced before the network
call is the base-class SatimError with gateway code "5", not an error of the
ValidationError class defined in src/utils/errors.ts. -/
theorem registerPaymentValidate_4999_not_validationError :
    registerPaymentValidate 4999 =
      .error ⟨"SatimError", "5", "Amount must be at least 5000 centimes (50 DA)", none⟩ ∧
    "SatimError" ≠ (mkValidationError "Amount must be at least 5000 centimes (50 DA)").name :=
  ⟨rfl, by decide⟩

/-- C4 (amended): registerPayment fails before issuing any network request,
with a SatimError carrying code "5" (INVALID_PARAMETER), whenever the amount
is below MIN_AMOUNT or not a multiple of 100, and proceeds to the gateway
call when both conditions hold. -/
theorem registerPaymentValidate_spec (amount : Int) :
    (amount < MIN_AMOUNT →
      registerPaymentValidate amount =
        .error ⟨"SatimError", INVALID_PARAMETER,
                "Amount must be at least 5000 centimes (50 DA)", none⟩) ∧
    (MIN_AMOUNT ≤ amount → amount % 100 ≠ 0 →
      registerPaymentValidate amount =
        .error ⟨"SatimError", INVALID_PARAMETER,
                "Amount must be a multiple of 100 centimes", none⟩) ∧
    (MIN_AMOUNT ≤ amount → amount % 100 = 0 →
      registerPaymentValidate amount = .ok ()) := by
  refine ⟨?_, ?_, ?_⟩
  · intro h
    unfold registerPaymentValidate
    rw [if_pos h]
  · intro h1 h2
    unfold registerPaymentValidate
    rw [if_neg (not_lt.mpr h1), if_pos h2]
  · intro h1 h2
    unfold registerPaymentValidate
    rw [if_neg (not_lt.mpr h1), if_neg (fun hn => hn h2)]

/-- C4 witness: 4999 and 5050 are rejected before the network call, 5000 and
10000 proceed to the gateway call. -/
theorem registerPaymentValidate_spec_witness :
    registerPaymentValidate 4999 =
      .error ⟨"SatimError", "5", "Amount must be at least 5000 centimes (50 DA)", none⟩ ∧
    registerPaymentValidate 5050 =
      .error ⟨"SatimError", "5", "Amount must be a multiple of 100 centimes", none⟩ ∧
    registerPaymentValidate 5000 = .ok () ∧
    registerPaymentValidate 10000 = .ok () :=
  ⟨(registerPaymentValidate_spec 4999).1 (by decide),
   (registerPaymentValidate_spec 5050).2.1 (by decide) (by decide),
   (registerPaymentValidate_spec 5000).2.2 (by decide) (by decide),
   (registerPaymentValidate_spec 10000).2.2 (by decide) (by decide)⟩

/-- C5: both status mappers are total functions over their input types; the
numeric order-status mapper realizes exactly the table 1/2/11 → SUCCESS,
4 → REFUNDED, 6/−1 → FAILED, 3 → CANCELLED, 0 or any other or absent value →
PENDING, and the callback string mapper sends every string not present in
STATUS_MAPPING to FAILED. -/
theorem statusMappers_total :
    (mapOrderStatusToPaymentStatus (some 1) = .success ∧
     mapOrderStatusToPaymentStatus (some 2) = .success ∧
     mapOrderStatusToPaymentStatus (some 11) = .success ∧
     mapOrderStatusToPaymentStatus (some 4) = .refunded ∧
     mapOrderStatusToPaymentStatus (some 6) = .failed ∧
     mapOrderStatusToPaymentStatus (some (-1)) = .failed ∧
     mapOrderStatusToPaymentStatus (some 3) = .cancelled ∧
     mapOrderStatusToPaymentStatus (some 0) = .pending ∧
     mapOrderStatusToPaymentStatus none = .pending) ∧
    (∀ n : Int, n ≠ 1 → n ≠ 2 → n ≠ 11 → n ≠ 4 → n ≠ 6 → n ≠ -1 → n ≠ 3 →
      mapOrderStatusToPaymentStatus (some n) = .pending) ∧
    (∀ s : String, s ∉ STATUS_MAPPING.map Prod.fst → mapStatus s = .failed) := by
  refine ⟨by decide, ?_, ?_⟩
  · intro n h1 h2 h3 h4 h5 h6 h7
    simp [mapOrderStatusToPaymentStatus, h1, h2, h3, h4, h5, h6, h7]
  · intro s hs
    have hl : STATUS_MAPPING.lookup s = none := lookup_eq_none_of_not_mem_keys _ s hs
    simp [mapStatus, hl]

/-- C5 witness: an unlisted numeric code maps to PENDING and an unlisted
callback status string maps to FAILED. -/
theorem statusMappers_total_witness :
    mapOrderStatusToPaymentStatus (some 42) = .pending ∧
    mapStatus "UNKNOWN_STATUS" = .failed :=
  ⟨statusMappers_total.2.1 42 (by decide) (by decide) (by decide) (by decide)
     (by decide) (by decide) (by decide),
   statusMappers_total.2.2 "UNKNOWN_STATUS" (by decide)⟩

/-- C6: CallbackHandler.handle is total (it never re-raises to the transport
layer — any failure of validation, signature handling, status mapping or
handler dispatch is caught) and always produces either a 200 acknowledgement
with success=true or a 400 acknowledgement with success=false echoing the
truthy payment id (else "unknown"). -/
theorem handle_always_acknowledges (key : String) (hs : Handlers) (body : Payload)
    (headerSig : Option String) :
    ((handle key hs body headerSig).httpStatus = 200 ∧
     (handle key hs body headerSig).response.success = true) ∨
    ((handle key hs body headerSig).httpStatus = 400 ∧
     (handle key hs body headerSig).response.success = false ∧
     (handle key hs body headerSig).response.paymentId =
       (if fieldTruthy body "paymentId" then fieldStr body "paymentId" else "unknown")) := by
  cases h : handleTry key hs body headerSig with
  | ok val =>
    obtain ⟨pid, inv⟩ := val
    left
    simp [handle, h]
  | error m =>
    right
    simp [handle, h]

/-- C7: waitForPayment returns the first verification a poll observes with a
non-PENDING status; a poll that fails propagates its failure immediately (no
retry across iterations); and if every poll inside the timeout budget stays
PENDING it fails with the timeout error. -/
theorem waitForPayment_spec (poll : Nat → Except String VerificationS)
    (timeoutMs intervalMs : Nat) :
    (∀ k v, (∀ j, j < k → ∃ w, poll j = .ok w ∧ w.status = .pending) →
      poll k = .ok v → v.status ≠ .pending → k < numPolls timeoutMs intervalMs →
      waitForPayment poll timeoutMs intervalMs = .ok v) ∧
    (∀ k m, (∀ j, j < k → ∃ w, poll j = .ok w ∧ w.status = .pending) →
      poll k = .error m → k < numPolls timeoutMs intervalMs →
      waitForPayment poll timeoutMs intervalMs = .error (.pollFailure m)) ∧
    ((∀ j, ∃ w, poll j = .ok w ∧ w.status = .pending) →
      waitForPayment poll timeoutMs intervalMs = .error .timeout) := by
  refine ⟨?_, ?_, ?_⟩
  · intro k v hprev hp hs hk
    exact waitForPaymentLoop_ok poll _ 0 k v
      (fun j hj => by rw [Nat.zero_add]; exact hprev j hj)
      (by rw [Nat.zero_add]; exact hp) hs hk
  · intro k m hprev hp hk
    exact waitForPaymentLoop_error poll _ 0 k m
      (fun j hj => by rw [Nat.zero_add]; exact hprev j hj)
      (by rw [Nat.zero_add]; exact hp) hk
  · intro hall
    exact waitForPaymentLoop_timeout poll hall _ 0

/-- Mock poll that turns successful on the second iteration. -/
def pollW : Nat → Except String VerificationS :=
  fun i => if i = 0 then .ok ⟨.pending, "waiting"⟩ else .ok ⟨.success, "done"⟩

/-- Mock poll that always reports PENDING. -/
def pollP : Nat → Except String VerificationS :=
  fun _ => .ok ⟨.pending, "waiting"⟩

/-- Mock poll whose second iteration throws. -/
def pollE : Nat → Except String VerificationS :=
  fun i => if i = 0 then .ok ⟨.pending, "waiting"⟩ else .error "Network error"

/-- C7 witness: with a 50ms timeout and 10ms interval, the first non-PENDING
poll is returned, a throwing poll propagates, and an always-PENDING mock
times out. -/
theorem waitForPayment_spec_witness :
    waitForPayment pollW 50 10 = .ok ⟨.success, "done"⟩ ∧
    waitForPayment pollE 50 10 = .error (.pollFailure "Network error") ∧
    waitForPayment pollP 50 10 = .error .timeout :=
  ⟨(waitForPayment_spec pollW 50 10).1 1 ⟨.success, "done"⟩
      (fun j hj => ⟨⟨.pending, "waiting"⟩, by
        have hj0 : j = 0 := by omega
        subst hj0
        exact ⟨rfl, rfl⟩⟩) rfl (by decide) (by decide),
   (waitForPayment_spec pollE 50 10).2.1 1 "Network error"
      (fun j hj => ⟨⟨.pending, "waiting"⟩, by
        have hj0 : j = 0 := by omega
        subst hj0
        exact ⟨rfl, rfl⟩⟩) rfl (by decide),
   (waitForPayment_spec pollP 50 10).2.2 (fun j => ⟨⟨.pending, "waiting"⟩, rfl, rfl⟩)⟩

/-- C9: with no caller-supplied order id, createPayment generates an id of
exactly 10 characters: the "ORD" prefix truncated to 3 characters, the last
4 digits of the epoch-millisecond timestamp, and a zero-padded 3-digit
random number. -/
theorem generateOrderId_ten_chars (now rand : Nat)
    (hnow : 4 ≤ (natToString now).length) (hrand : rand < 1000) :
    createPaymentOrderNumber none now rand = generateOrderId "ORD" now rand ∧
    substringJS "ORD" 3 = "ORD" ∧
    (sliceLast (natToString now) 4).length = 4 ∧
    (padStart (natToString rand) 3 '0').length = 3 ∧
    (generateOrderId "ORD" now rand).length = 10 := by
  have hub : (natToString rand).length ≤ 3 := by
    simpa [natToString, String.length] using
      natDigitsRev_length_le_three (rand + 1) rand hrand
  have hlen4 : (sliceLast (natToString now) 4).length = 4 := by
    simp only [sliceLast, String.length, List.length_drop] at hnow ⊢
    omega
  have hlen3 : (padStart (natToString rand) 3 '0').length = 3 := by
    simp only [padStart, String.length, List.length_append, List.length_replicate] at hub ⊢
    omega
  refine ⟨rfl, rfl, hlen4, hlen3, ?_⟩
  simp only [generateOrderId, String.length_append, hlen4, hlen3]
  rfl

/-- C9 witness: a concrete timestamp and random draw yield a 10-character id. -/
theorem generateOrderId_ten_chars_witness :
    createPaymentOrderNumber none 1733000000000 7 = generateOrderId "ORD" 1733000000000 7 ∧
    substringJS "ORD" 3 = "ORD" ∧
    (sliceLast (natToString 1733000000000) 4).length = 4 ∧
    (padStart (natToString 7) 3 '0').length = 3 ∧
    (generateOrderId "ORD" 1733000000000 7).length = 10 :=
  generateOrderId_ten_chars 1733000000000 7 (by decide) (by decide)

/-- C2: verification accepts exactly the recomputed signature.  Any received
signature that differs from the signature recomputed over the payload —
whether from a mutated payload, an altered signature, or a length mismatch —
is rejected; the functions are total, so no exception ever escapes to the
caller. -/
theorem verifySignature_spec (key : String) (p : Payload) :
    verifySignature key p (generateSignature key p) = true ∧
    ∀ s, s ≠ generateSignature key p → verifySignature key p s = false := by
  constructor
  · simp [verifySignature, secureCompare, timingSafeEqual]
  · intro s hne
    unfold verifySignature secureCompare
    by_cases hl : (generateSignature key p).length ≠ s.length
    · rw [if_pos hl]
    · rw [if_neg hl]
      unfold timingSafeEqual
      by_cases hb : (strBytes (generateSignature key p)).length = (strBytes s).length
      · rw [if_pos hb]
        simp only [beq_eq_false_iff_ne, ne_eq]
        intro heq
        exact hne (strBytes_inj _ _ heq).symm
      · rw [if_neg hb]

/-- C2 witness: the repository test's invalid signature is rejected on a
concrete payload. -/
theorem verifySignature_spec_witness :
    verifySignature "test-secret-key"
      [("orderId", JVal.str "ORDER001"), ("amount", JVal.str "5000")]
      "INVALID_SIGNATURE" = false :=
  (verifySignature_spec "test-secret-key"
    [("orderId", JVal.str "ORDER001"), ("amount", JVal.str "5000")]).2
    "INVALID_SIGNATURE" (by decide)

/-- The default string order is total. -/
theorem charListLe_total : ∀ a b, charListLe a b = true ∨ charListLe b a = true := by
  intro a
  induction a with
  | nil => intro b; left; rfl
  | cons x as ih =>
    intro b
    cases b with
    | nil => right; rfl
    | cons y bs =>
      rcases Nat.lt_trichotomy x.toNat y.toNat with h | h | h
      · left
        simp [charListLe, h]
      · rcases ih bs with hr | hr
        · left
          simp [charListLe, h, hr]
        · right
          simp [charListLe, h, hr]
      · right
        simp [charListLe, h]

/-- The default string order is transitive. -/
theorem charListLe_trans : ∀ a b c, charListLe a b = true → charListLe b c = true →
    charListLe a c = true := by
  intro a
  induction a with
  | nil => intro b c _ _; rfl
  | cons x as ih =>
    intro b c hab hbc
    cases b with
    | nil => simp [charListLe] at hab
    | cons y bs =>
      cases c with
      | nil => simp [charListLe] at hbc
      | cons z cs =>
        simp only [charListLe] at hab hbc ⊢
        by_cases h1 : x.toNat < y.toNat
        · by_cases h2 : y.toNat < z.toNat
          · rw [if_pos (by omega)]
          · by_cases h3 : z.toNat < y.toNat
            · rw [if_neg h2, if_pos h3] at hbc
              exact absurd hbc (by simp)
            · rw [if_pos (by omega)]
        · by_cases h4 : y.toNat < x.toNat
          · rw [if_neg h1, if_pos h4] at hab
            exact absurd hab (by simp)
          · rw [if_neg h1, if_neg h4] at hab
            by_cases h2 : y.toNat < z.toNat
            · rw [if_pos (by omega)]
            · by_cases h3 : z.toNat < y.toNat
              · rw [if_neg h2, if_pos h3] at hbc
                exact absurd hbc (by simp)
              · rw [if_neg h2, if_neg h3] at hbc
                rw [if_neg (by omega), if_neg (by omega)]
                exact ih bs cs hab hbc

/-- The default string order is antisymmetric. -/
theorem charListLe_antisymm : ∀ a b, charListLe a b = true → charListLe b a = true →
    a = b := by
  intro a
  induction a with
  | nil =>
    intro b _ hba
    cases b with
    | nil => rfl
    | cons y bs => simp [charListLe] at hba
  | cons x as ih =>
    intro b hab hba
    cases b with
    | nil => simp [charListLe] at hab
    | cons y bs =>
      simp only [charListLe] at hab hba
      rcases Nat.lt_trichotomy x.toNat y.toNat with h | h | h
      · rw [if_neg (by omega), if_pos h] at hba
        exact absurd hba (by simp)
      · rw [if_neg (by omega), if_neg (by omega)] at hab hba
        have hxy : x = y := Char.ext (UInt32.ext h)
        rw [hxy, ih bs hab hba]
      · rw [if_neg (by omega), if_pos h] at hab
        exact absurd hab (by simp)

/-- strLeB as a relation is antisymmetric (for eq_of_perm_of_sorted). -/
instance : IsAntisymm String (fun a b => strLeB a b = true) := by
  constructor
  intro a b hab hba
  cases a with
  | mk da =>
    cases b with
    | mk db =>
      rw [charListLe_antisymm da db hab hba]

/-- Inserting into a sorted key list is a permutation of consing. -/
theorem insertKeySorted_perm (k : String) (l : List String) :
    (insertKeySorted k l).Perm (k :: l) := by
  induction l with
  | nil => exact List.Perm.refl _
  | cons x xs ih =>
    simp only [insertKeySorted]
    by_cases h : strLeB k x = true
    · rw [if_pos h]
    · rw [if_neg h]
      exact (ih.cons x).trans (List.Perm.swap k x xs)

/-- sortKeys permutes its input. -/
theorem sortKeys_perm (l : List String) : (sortKeys l).Perm l := by
  induction l with
  | nil => exact List.Perm.refl _
  | cons x xs ih =>
    exact (insertKeySorted_perm x (sortKeys xs)).trans (ih.cons x)

/-- Insertion preserves sortedness under the default string order. -/
theorem insertKeySorted_sorted (k : String) (l : List String)
    (h : l.Sorted (fun a b => strLeB a b = true)) :
    (insertKeySorted k l).Sorted (fun a b => strLeB a b = true) := by
  induction l with
  | nil => simp [insertKeySorted]
  | cons x xs ih =>
    simp only [insertKeySorted]
    rw [List.sorted_cons] at h
    by_cases hk : strLeB k x = true
    · rw [if_pos hk, List.sorted_cons]
      refine ⟨?_, List.sorted_cons.mpr h⟩
      intro b hb
      rcases List.mem_cons.mp hb with hb | hb
      · exact hb ▸ hk
      · exact charListLe_trans _ _ _ hk (h.1 b hb)
    · rw [if_neg hk, List.sorted_cons]
      refine ⟨?_, ih h.2⟩
      intro b hb
      have hmem : b ∈ k :: xs := (insertKeySorted_perm k xs).mem_iff.mp hb
      rcases List.mem_cons.mp hmem with hb2 | hb2
      · subst hb2
        rcases charListLe_total x.data b.data with ht | ht
        · exact ht
        · exact absurd ht hk
      · exact h.1 b hb2

/-- sortKeys sorts under the default string order. -/
theorem sortKeys_sorted (l : List String) :
    (sortKeys l).Sorted (fun a b => strLeB a b = true) := by
  induction l with
  | nil => simp [sortKeys]
  | cons x xs ih => exact insertKeySorted_sorted x (sortKeys xs) ih

/-- Permutations of a payload with duplicate-free keys have equal lookups. -/
theorem lookup_eq_of_perm : ∀ (p1 p2 : Payload), p1.Perm p2 →
    (p1.map Prod.fst).Nodup → ∀ k, p1.lookup k = p2.lookup k := by
  intro p1 p2 h
  induction h with
  | nil => intro _ k; rfl
  | cons x l12 ih =>
    intro nd k
    cases x with
    | mk kx vx =>
      simp only [List.map_cons, List.nodup_cons] at nd
      simp only [List.lookup]
      cases hk : (k == kx) with
      | true => rfl
      | false => exact ih nd.2 k
  | swap x y l =>
    intro nd k
    obtain ⟨kx, vx⟩ := x
    obtain ⟨ky, vy⟩ := y
    simp only [List.map_cons, List.nodup_cons, List.mem_cons, not_or] at nd
    have hne : ky ≠ kx := nd.1.1
    by_cases h1 : k = ky
    · subst h1
      have h2 : (k == kx) = false := beq_eq_false_iff_ne.mpr hne
      simp [List.lookup, h2]
    · have h1b : (k == ky) = false := beq_eq_false_iff_ne.mpr h1
      by_cases h2 : k = kx
      · subst h2
        simp [List.lookup, h1b]
      · have h2b : (k == kx) = false := beq_eq_false_iff_ne.mpr h2
        simp [List.lookup, h1b, h2b]
  | trans h1 h2 ih1 ih2 =>
    intro nd k
    have nd2 := ((h1.map Prod.fst).nodup_iff).mp nd
    rw [ih1 nd k, ih2 nd2 k]

/-- C3: generateSignature is deterministic and insertion-order independent:
two flat payload mappings with exactly the same key/value pairs, in any
insertion order, sign identically under the same secret key. -/
theorem generateSignature_perm_invariant (key : String) (p1 p2 : Payload)
    (nd : (p1.map Prod.fst).Nodup) (h : p1.Perm p2) :
    generateSignature key p1 = generateSignature key p2 := by
  have hkeys : (p1.map Prod.fst).Perm (p2.map Prod.fst) := h.map Prod.fst
  have hperm : (sortKeys (p1.map Prod.fst)).Perm (sortKeys (p2.map Prod.fst)) :=
    (sortKeys_perm _).trans (hkeys.trans (sortKeys_perm _).symm)
  have hsorted : sortKeys (p1.map Prod.fst) = sortKeys (p2.map Prod.fst) :=
    List.eq_of_perm_of_sorted hperm (sortKeys_sorted _) (sortKeys_sorted _)
  have hfun : (fun k => k ++ "=" ++ ((p1.lookup k).getD (.str "undefined")).toStr)
      = (fun k => k ++ "=" ++ ((p2.lookup k).getD (.str "undefined")).toStr) := by
    funext k
    rw [lookup_eq_of_perm p1 p2 h nd k]
  simp only [generateSignature, hsorted, hfun]

/-- C3 witness: the spec's example pair signs identically in either insertion
order. -/
theorem generateSignature_perm_invariant_witness :
    generateSignature "secret" [("orderId", JVal.str "O1"), ("amount", JVal.str "5000")] =
      generateSignature "secret" [("amount", JVal.str "5000"), ("orderId", JVal.str "O1")] :=
  generateSignature_perm_invariant "secret"
    [("orderId", JVal.str "O1"), ("amount", JVal.str "5000")]
    [("amount", JVal.str "5000"), ("orderId", JVal.str "O1")]
    (by decide)
    (List.Perm.swap ("amount", JVal.str "5000") ("orderId", JVal.str "O1") [])

/-- C10: for every payload and secret key the signature is a string of
exactly 64 characters drawn from the uppercase hexadecimal alphabet. -/
theorem generateSignature_hex64 (key : String) (p : Payload) :
    (generateSignature key p).length = 64 ∧
    (generateSignature key p).data.all (fun c => hexUpperChars.contains c) = true := by
  refine ⟨generateSignature_length key p, ?_⟩
  rw [List.all_eq_true]
  intro c hc
  exact List.elem_eq_true_of_mem (generateSignature_chars key p c hc)

/-- Base fields of the end-to-end scenario-D callback, without signature. -/
def c1Base : Payload :=
  [("paymentId", .str "PAY1"), ("orderId", .str "ORD1"), ("status", .str "6"),
   ("amount", .num 5000), ("currency", .str "012")]

/-- Scenario-D callback body: the base fields plus a valid signature over
them, exactly what the gateway would send. -/
def c1Body : Payload := c1Base ++ [("signature", .str (generateSignature "cbsecret" c1Base))]

/-- All three outcome handlers registered and completing normally. -/
def allHandlers : Handlers := ⟨some (.ok ()), some (.ok ()), some (.ok ())⟩

/-- C1 (code bug): a structurally valid callback with a valid signature and
status "6" is mapped to CANCELLED by handle, but processCallback re-applies
mapStatus to the already-mapped enum string "cancelled", which is not a key
of STATUS_MAPPING and therefore falls back to FAILED — so with all three
handlers registered, the failure handler (not the cancellation handler) is
the one invoked. -/
theorem handle_status6_invokes_failure_handler :
    mapStatus "6" = .cancelled ∧
    handle "cbsecret" allHandlers c1Body none =
      ⟨200, ⟨true, "Callback processed successfully", "PAY1"⟩, some .failed⟩ := by
  constructor
  · rfl
  · rfl

/-- C8 counterexample: the SignatureError raised on a signature mismatch
embeds the received signature in its structured details, so an error value
of the system does embed a signature. -/
theorem verifyCallback_embeds_received_signature :
    verifyCallback "cbsecret"
      [("paymentId", .str "PAY9"), ("orderId", .str "ORD9"), ("status", .str "1"),
       ("amount", .num 5000), ("currency", .str "012")] "DEADBEEF" =
      .error ⟨"Invalid signature",
        some ⟨"DEADBEEF", ["paymentId", "orderId", "status", "amount", "currency"]⟩⟩ := by
  rfl

/-- C8 (amended): the details of any error raised by verifyCallback contain
at most the received signature and the payload key names — in particular no
credentials and not the secret key — but the invalid-signature error does
embed the received signature. -/
theorem verifyCallback_details_spec (key : String) (cd : Payload) (sig : String)
    (e : SignatureError) (h : verifyCallback key cd sig = .error e) :
    e.details = none ∨
    e.details = some ⟨sig, (removeKey "signature" cd).map Prod.fst⟩ := by
  unfold verifyCallback at h
  by_cases h0 : sig = ""
  · rw [if_pos h0] at h
    simp only [Except.error.injEq] at h
    subst h
    left
    rfl
  · rw [if_neg h0] at h
    by_cases hv : verifySignature key (removeKey "signature" cd) sig = true
    · rw [if_pos hv] at h
      exact absurd h (by simp)
    · rw [if_neg hv] at h
      simp only [Except.error.injEq] at h
      subst h
      right
      rfl

/-- C8 amended-claim witness: a concrete mismatching signature produces the
invalid-signature error whose details hold exactly that signature and the
key names. -/
theorem verifyCallback_details_spec_witness :
    (⟨"Invalid signature", some ⟨"zz", []⟩⟩ : SignatureError).details = none ∨
    (⟨"Invalid signature", some ⟨"zz", []⟩⟩ : SignatureError).details =
      some ⟨"zz", (removeKey "signature" ([] : Payload)).map Prod.fst⟩ :=
  verifyCallback_details_spec "k" [] "zz" ⟨"Invalid signature", some ⟨"zz", []⟩⟩ (by rfl)

end Satim
